import Mathlib

/-!
Verification of the DCGAN training agent (`src/agents/dcgan.py`, class
`DCGANAgent`) against its natural-language specification.

The agent is shallowly embedded:
* model and optimizer parameter blobs are opaque `Nat` tokens (the spec
  treats the networks as opaque differentiable function objects);
* the checkpoint directory is an association list from path strings to
  file contents, where a fresh write shadows older entries;
* Python exceptions are an explicit `PyErr` type and fallible methods
  return `Except PyErr _`;
* the straight-line body of the per-step update (lines 157-204 of
  `dcgan.py`) is embedded a second time as the list of autograd /
  optimizer / telemetry events it performs, in source order, so that
  gradient-flow and telemetry claims can be stated over that trace.

Note on line 139 (`self.model.train()`): the attribute `model` is read
at lines 72 and 139 but never assigned anywhere in the class (line 72
itself reads it before assigning, and the cuda branch of `__init__`
fails earlier at line 68), so every call of `train_one_epoch` raises
`AttributeError` before its step loop, and `run` — which catches only
`KeyboardInterrupt` (line 126) — propagates it.  The faithful whole-run
model (`model_attribute`, `train_one_epoch`, `trainEpochs`, `train`)
reflects this failure.  The step/epoch bookkeeping that sits downstream
of that failure (`runStep` through `trainLoop`) is also kept, as the
loop the body would perform were the attribute present: the fixed-noise
preservation property is stated over it and holds a fortiori for the
real program, whose loop performs none of these updates.
-/

namespace DCGAN

/-- The configuration object handed to `DCGANAgent.__init__`.  Only the
fields the embedded code actually reads are kept.  The field
`telemetry_interval` is *Modelled from the spec:* the spec's
configuration surface lists a "telemetry-emission interval", but no such
key is read anywhere in the source; it is carried here so that the
spec's claim about configurability can be stated and compared with the
code's behaviour. -/
structure Config where
  seed : Option Nat
  cuda : Bool
  batch_size : Nat
  g_input_size : Nat
  max_epoch : Nat
  num_iterations : Nat
  checkpoint_dir : String
  checkpoint_file : String
  telemetry_interval : Nat
  deriving Repr, DecidableEq

/-- The dict written by `save_checkpoint` / read by `load_checkpoint`:
keys 'epoch', 'iteration', 'G_state_dict', 'G_optimizer',
'D_state_dict', 'D_optimizer'.  The four state-dict blobs are opaque
tokens. -/
structure Checkpoint where
  epoch : Nat
  iteration : Nat
  G_state_dict : Nat
  G_optimizer : Nat
  D_state_dict : Nat
  D_optimizer : Nat
  deriving Repr, DecidableEq

/-- Content of a file in the checkpoint directory: either a
deserializable checkpoint dict, or bytes on which `torch.load` raises a
deserialization failure (e.g. `UnpicklingError`), which is not an
`OSError`. -/
inductive FileContent where
  | valid (c : Checkpoint)
  | corrupted
  deriving Repr, DecidableEq

/-- The checkpoint directory: newest write first; a read returns the
newest entry for the path, a missing path makes `torch.load` raise
`OSError` (`FileNotFoundError`). -/
abbrev FS := List (String × FileContent)

/-- Writing a file: the new content shadows any older entry. -/
def fsWrite (fs : FS) (path : String) (c : FileContent) : FS :=
  (path, c) :: fs

/-- Reading a file: newest entry for the path, if any. -/
def fsRead (fs : FS) (path : String) : Option FileContent :=
  fs.lookup path

/-- Python exceptions that the embedded fragments can raise. -/
inductive PyErr where
  | attributeError (name : String)
  | typeError
  | unpicklingError
  deriving Repr, DecidableEq

/-- The mutable attributes of a `DCGANAgent` that the orchestration loop
touches.  `manual_seed` is `Option`al because `__init__` assigns it only
on one branch (lines 61-62). -/
structure AgentState where
  current_epoch : Nat
  current_iteration : Nat
  netG : Nat
  netD : Nat
  optimG : Nat
  optimD : Nat
  fixed_noise : Nat
  manual_seed : Option Nat
  deriving Repr, DecidableEq

/-- The state dict built by `save_checkpoint` (lines 103-110): note
`'epoch': self.current_epoch + 1`. -/
def checkpointOf (s : AgentState) : Checkpoint :=
  { epoch := s.current_epoch + 1
    iteration := s.current_iteration
    G_state_dict := s.netG
    G_optimizer := s.optimG
    D_state_dict := s.netD
    D_optimizer := s.optimD }

/-- Method `DCGANAgent.save_checkpoint` (lines 102-116): `torch.save` the state
dict to `checkpoint_dir + file_name`; if `is_best`, additionally
`shutil.copyfile` it to `checkpoint_dir + 'model_best.pth.tar'`. -/
def save_checkpoint (cfg : Config) (s : AgentState) (fs : FS)
    (file_name : String) (is_best : Bool) : FS :=
  let fs1 := fsWrite fs (cfg.checkpoint_dir ++ file_name) (.valid (checkpointOf s))
  if is_best then
    fsWrite fs1 (cfg.checkpoint_dir ++ "model_best.pth.tar") (.valid (checkpointOf s))
  else fs1

/-- Method `DCGANAgent.load_checkpoint` (lines 83-100): `torch.load` the file;
copy the six fields into the agent; the `except OSError` clause catches
a missing file (and any other `OSError`) and merely prints, leaving
every attribute as it was; any failure that is not an `OSError`
(e.g. a deserialization failure) is not caught and propagates. -/
def load_checkpoint (cfg : Config) (s : AgentState) (fs : FS)
    (file_name : String) : Except PyErr AgentState :=
  match fsRead fs (cfg.checkpoint_dir ++ file_name) with
  | none => .ok s
  | some .corrupted => .error .unpicklingError
  | some (.valid checkpoint) =>
      .ok { s with
        current_epoch := checkpoint.epoch
        current_iteration := checkpoint.iteration
        netG := checkpoint.G_state_dict
        optimG := checkpoint.G_optimizer
        netD := checkpoint.D_state_dict
        optimD := checkpoint.D_optimizer }

/-- Environment inputs consumed by `__init__`: the freshly constructed
network / optimizer parameter blobs, the one sample drawn for
`fixed_noise` (line 49), the value `random.randint(1, 10000)` would
return (line 62), and whether `torch.cuda.is_available()` (line 54). -/
structure InitArgs where
  g0 : Nat
  d0 : Nat
  og0 : Nat
  od0 : Nat
  fixedNoiseSample : Nat
  randintSample : Nat
  cudaAvailable : Bool
  deriving Repr, DecidableEq

/-- Constructor `DCGANAgent.__init__` (lines 26-81).  Counters start at 0,
`fixed_noise` is sampled once (line 49).  Lines 61-64: `manual_seed` is
assigned only when `config.seed is None`; the unconditional
`random.seed(self.manual_seed)` then raises `AttributeError` whenever a
seed was configured.  Line 58: `self.cuda = is_available & config.cuda`.
On the cuda branch, line 68 calls
`torch.cuda.manual_seed_all(self.config.seed)` with `seed = None`
(the only way to get past line 63), which raises `TypeError`.  Finally
line 78 loads the latest checkpoint, whose non-`OSError` failures
propagate out of the constructor. -/
def construct (cfg : Config) (ia : InitArgs) (fs : FS) :
    Except PyErr AgentState :=
  let s0 : AgentState :=
    { current_epoch := 0
      current_iteration := 0
      netG := ia.g0
      netD := ia.d0
      optimG := ia.og0
      optimD := ia.od0
      fixed_noise := ia.fixedNoiseSample
      manual_seed := none }
  let afterSeedBranch : AgentState :=
    match cfg.seed with
    | none => { s0 with manual_seed := some ia.randintSample }
    | some _ => s0
  match afterSeedBranch.manual_seed with
  | none => .error (.attributeError "manual_seed")
  | some _ =>
      let cudaOn := ia.cudaAvailable && cfg.cuda
      if cudaOn then .error .typeError
      else load_checkpoint cfg afterSeedBranch fs cfg.checkpoint_file

/-- The networks and Adam are external collaborators (spec section 1):
one training step updates the two parameter blobs and the two optimizer
states through these opaque per-step update maps. -/
structure NetOps where
  stepG : Nat → Nat
  stepD : Nat → Nat
  stepOptG : Nat → Nat
  stepOptD : Nat → Nat

/-- Effect of one iteration of the loop body of `train_one_epoch`
(lines 145-194) on the agent attributes: the discriminator and
generator optimizer steps update the parameter blobs opaquely, and
`self.current_iteration += 1` (line 194).  `current_epoch` and
`fixed_noise` are untouched. -/
def runStep (ops : NetOps) (s : AgentState) : AgentState :=
  { s with
    netD := ops.stepD s.netD
    optimD := ops.stepOptD s.optimD
    netG := ops.stepG s.netG
    optimG := ops.stepOptG s.optimG
    current_iteration := s.current_iteration + 1 }

/-- Running `n` consecutive training steps. -/
def stepIter (ops : NetOps) : Nat → AgentState → AgentState
  | 0, s => s
  | n + 1, s => stepIter ops n (runStep ops s)

/-- Result of running the step loop of one epoch under a cooperative
interruption budget, in the hypothetical execution in which line 139
did not raise (see the module note; used only for state-preservation
properties that hold a fortiori for the real, failing program). -/
structure EpochOut where
  state : AgentState
  budget : Option Nat
  steps : Nat
  interrupted : Bool
  deriving Repr

/-- The `for curr_it, x in enumerate(tqdm_batch)` loop of
`train_one_epoch` over `n` batches — in the hypothetical execution in
which line 139 did not raise — under an optional cooperative
`KeyboardInterrupt` budget: with budget `some b` the interrupt is
observed between steps once `b` steps of the whole run have completed
(spec section 5: cancellation is observed between steps, never
mid-step); with budget `none` the run is never interrupted.  `steps`
counts the completed iterations of this epoch, each of which produced
one loss record (`epoch_lossD.update` / `epoch_lossG.update`,
lines 191-192). -/
def epochSteps (ops : NetOps) : Nat → Option Nat → AgentState → EpochOut
  | 0, b, s => ⟨s, b, 0, false⟩
  | _ + 1, some 0, s => ⟨s, some 0, 0, true⟩
  | n + 1, some (b + 1), s =>
      let r := epochSteps ops n (some b) (runStep ops s)
      ⟨r.state, r.budget, r.steps + 1, r.interrupted⟩
  | n + 1, none, s =>
      let r := epochSteps ops n none (runStep ops s)
      ⟨r.state, r.budget, r.steps + 1, r.interrupted⟩

/-- Result of the hypothetical (line-139-elided) epoch loop: final
attributes, checkpoint directory, number of loss records produced, the
epoch indices whose bodies were entered, and whether a
`KeyboardInterrupt` was caught. -/
structure RunOut where
  state : AgentState
  fs : FS
  records : Nat
  epochsStarted : List Nat
  interrupted : Bool
  deriving Repr

/-- The `for epoch in range(...)` loop of `train` (lines 129-133) over
an explicit list of epoch indices, in the hypothetical execution in
which line 139 did not raise: set `self.current_epoch = epoch`, run the
step loop, then `save_checkpoint()` (default file name, `is_best`
false).  A `KeyboardInterrupt` inside the epoch body aborts the loop
before that epoch's save; `run` (lines 118-127) catches it, so the
partial attributes and the untouched checkpoint directory are returned
with `interrupted = true`.  Kept only for the fixed-noise preservation
property; the faithful model of `train` is `trainEpochs` below. -/
def trainLoop (cfg : Config) (ops : NetOps) :
    List Nat → Option Nat → AgentState → FS → RunOut
  | [], _, s, fs => ⟨s, fs, 0, [], false⟩
  | e :: rest, b, s, fs =>
      let s1 := { s with current_epoch := e }
      let r := epochSteps ops cfg.num_iterations b s1
      if r.interrupted then ⟨r.state, fs, r.steps, [e], true⟩
      else
        let fs1 := save_checkpoint cfg r.state fs "checkpoint.pth.tar" false
        let rr := trainLoop cfg ops rest r.budget r.state fs1
        ⟨rr.state, rr.fs, r.steps + rr.records, e :: rr.epochsStarted, rr.interrupted⟩

/-- The `model` attribute of the agent: it is read at lines 72 and 139
but never assigned anywhere in the class (line 72 itself reads it
before assigning, and the cuda branch of `__init__` fails earlier), so
on every reachable agent it is unset. -/
def model_attribute : Option Nat := none

/-- Method `DCGANAgent.train_one_epoch` (lines 135-210), faithfully:
its first statement `self.model.train()` (line 139) reads the
never-assigned `model` attribute and raises `AttributeError` before the
step loop, so no step runs and no loss record is produced; were the
attribute present, the method would perform the `num_iterations` steps
of `stepIter`, one loss record each. -/
def train_one_epoch (ops : NetOps) (num_iterations : Nat)
    (s : AgentState) : Except PyErr (AgentState × Nat) :=
  match model_attribute with
  | none => .error (.attributeError "model")
  | some _ => .ok (stepIter ops num_iterations s, num_iterations)

/-- Result of the faithful `train` / `run`: the exception that
propagated (if any), the attributes at that moment, the checkpoint
directory, the loss records produced, and the epoch indices whose
bodies were entered. -/
structure RunResult where
  raised : Option PyErr
  state : AgentState
  fs : FS
  records : Nat
  epochsStarted : List Nat
  deriving Repr

/-- The faithful `for epoch in range(...)` loop of `train`
(lines 129-133) over an explicit list of epoch indices: set
`self.current_epoch = epoch` (line 131), call `train_one_epoch`
(line 132) — whose line-139 failure aborts the loop before any step,
any loss record and any save — and only after a completed epoch call
`save_checkpoint()` (line 133).  `run` (lines 118-127) catches only
`KeyboardInterrupt`, so the `AttributeError` propagates out of `run`
unchanged, with the attributes and checkpoint directory as recorded
here. -/
def trainEpochs (cfg : Config) (ops : NetOps) :
    List Nat → AgentState → FS → RunResult
  | [], s, fs => ⟨none, s, fs, 0, []⟩
  | e :: rest, s, fs =>
      let s1 := { s with current_epoch := e }
      match train_one_epoch ops cfg.num_iterations s1 with
      | .error err => ⟨some err, s1, fs, 0, [e]⟩
      | .ok sr =>
          let fs1 := save_checkpoint cfg sr.1 fs "checkpoint.pth.tar" false
          let rr := trainEpochs cfg ops rest sr.1 fs1
          ⟨rr.raised, rr.state, rr.fs, sr.2 + rr.records, e :: rr.epochsStarted⟩

/-- Method `DCGANAgent.train` (lines 129-133), faithfully:
`range(self.current_epoch, self.config.max_epoch)`. -/
def train (cfg : Config) (ops : NetOps) (s : AgentState) (fs : FS) :
    RunResult :=
  trainEpochs cfg ops
    (List.range' s.current_epoch (cfg.max_epoch - s.current_epoch)) s fs

/-- Method `DCGANAgent.finalize` (lines 216-225): its effect on the checkpoint
directory is one more `save_checkpoint()` of the current attributes
(the scalar-json export and `SummaryWriter` / dataloader teardown touch
only the telemetry sink and data source, which are external). -/
def finalize (cfg : Config) (s : AgentState) (fs : FS) : FS :=
  save_checkpoint cfg s fs "checkpoint.pth.tar" false

/-! ### Trace model of the per-step update protocol

The loop body of `train_one_epoch` (lines 145-204) is straight-line
code; it is embedded as the ordered list of autograd / optimizer /
metric / telemetry events it performs, over symbolic tensor
expressions. -/

/-- Symbolic tensor expressions occurring in one step: the real batch
`x`, the per-step noise `fake_noise` (line 147), the constructor-time
`fixed_noise`, and the forward / detach combinators. -/
inductive TExpr where
  | realBatch
  | stepNoise
  | fixedNoise
  | genForward (z : TExpr)
  | discForward (t : TExpr)
  | detach (t : TExpr)
  deriving Repr, DecidableEq

/-- The two networks. -/
inductive Net where
  | G
  | D
  deriving Repr, DecidableEq

/-- The label targets: `real_label = 1`, `fake_label = 0`. -/
inductive Label where
  | real
  | fake
  deriving Repr, DecidableEq

/-- Events performed by one iteration of the loop body, in source
order. -/
inductive Event where
  | zeroGrad (net : Net)
  | backward (output : TExpr) (target : Label)
  | optStep (net : Net)
  | meterUpdate (meter : String)
  | addScalar (tag : String)
  | addImage (tag : String) (img : TExpr)
  deriving Repr, DecidableEq

/-- Whether backpropagating from this expression sends gradient into
the generator's parameters: `genForward` does, `detach` blocks, the
discriminator forward passes gradient through to its input. -/
def touchesG : TExpr → Bool
  | .genForward _ => true
  | .discForward t => touchesG t
  | .detach _ => false
  | _ => false

/-- The events of iteration `curr_it` of the `train_one_epoch` loop
body, in the order of lines 157-204:
discriminator update (`netD.zero_grad()`; real-batch forward, loss
against constant 1, backward; `G_fake_out = netG(fake_noise)`;
`netD(G_fake_out.detach())`, loss against constant 0, backward;
`optimD.step()`), generator update (`netG.zero_grad()`;
`netD(G_fake_out)` on the same fake batch without detaching, loss
against constant 1, backward; `optimG.step()`), the two meter updates,
and — only when `curr_it % 100 == 0` — the two loss scalars, the real
image, and the generated image computed from `fixed_noise`
(`netG(self.fixed_noise)`, emitted detached). -/
def stepEvents (curr_it : Nat) : List Event :=
  [ .zeroGrad .D,
    .backward (.discForward .realBatch) .real,
    .backward (.discForward (.detach (.genForward .stepNoise))) .fake,
    .optStep .D,
    .zeroGrad .G,
    .backward (.discForward (.genForward .stepNoise)) .real,
    .optStep .G,
    .meterUpdate "epoch_lossD",
    .meterUpdate "epoch_lossG" ]
  ++ (if curr_it % 100 == 0 then
        [ .addScalar "epoch/Generator_loss",
          .addScalar "epoch/Discriminator_loss",
          .addImage ("Real image " ++ toString curr_it) .realBatch,
          .addImage ("Generated Image" ++ toString curr_it)
            (.detach (.genForward .fixedNoise)) ]
      else [])

/-- Telemetry events are the `SummaryWriter` calls. -/
def isTelemetry : Event → Bool
  | .addScalar _ => true
  | .addImage _ _ => true
  | _ => false

/-- When, according to the spec's words, telemetry should be emitted:
*Modelled from the spec:* "Every N steps (configurable, default 100)",
with `N` the configuration surface's telemetry-emission interval. -/
def specEmitsAt (cfg : Config) (curr_it : Nat) : Bool :=
  curr_it % cfg.telemetry_interval == 0

/-! ### File-system operation trace of `save_checkpoint`

For the atomicity claim the two writes of `save_checkpoint` are also
embedded as the sequence of file-system operations they perform. -/

/-- File-system operations: `torch.save(state, path)` streams the
serialized state directly into `path`; `shutil.copyfile` copies bytes
into the destination; a rename is listed because the spec's atomic
write protocol needs it, though the source never performs one. -/
inductive FSOp where
  | writeFile (path : String)
  | copyFile (src dst : String)
  | renameFile (src dst : String)
  deriving Repr, DecidableEq

/-- The file-system operations of `save_checkpoint` (lines 102-116) in
order: one direct `torch.save` into `checkpoint_dir + file_name`, then,
if `is_best`, one `shutil.copyfile` to
`checkpoint_dir + 'model_best.pth.tar'`. -/
def save_checkpoint_fsops (cfg : Config) (file_name : String)
    (is_best : Bool) : List FSOp :=
  [.writeFile (cfg.checkpoint_dir ++ file_name)]
  ++ (if is_best then
        [.copyFile (cfg.checkpoint_dir ++ file_name)
          (cfg.checkpoint_dir ++ "model_best.pth.tar")]
      else [])

/-- The spec's mechanism for an atomic publish of `dest` ("write to
temp then rename, or equivalent"): `dest` only ever materializes via a
rename, never as the target of a direct write or copy, and some rename
into `dest` occurs. -/
def atomicPublish (ops : List FSOp) (dest : String) : Bool :=
  (ops.all fun op =>
    match op with
    | .writeFile p => p != dest
    | .copyFile _ d => d != dest
    | .renameFile _ _ => true)
  && (ops.any fun op =>
    match op with
    | .renameFile _ d => d == dest
    | _ => false)

/-! ### Basic lemmas about the embedding -/

theorem fsRead_fsWrite (fs : FS) (p : String) (c : FileContent) :
    fsRead (fsWrite fs p c) p = some c := by
  simp [fsRead, fsWrite, List.lookup]

theorem trainEpochs_cons (cfg : Config) (ops : NetOps) (e : Nat)
    (rest : List Nat) (s : AgentState) (fs : FS) :
    trainEpochs cfg ops (e :: rest) s fs
      = ⟨some (PyErr.attributeError "model"),
         { s with current_epoch := e }, fs, 0, [e]⟩ := rfl

theorem train_crash (cfg : Config) (ops : NetOps) (s : AgentState)
    (fs : FS) (h : s.current_epoch < cfg.max_epoch) :
    train cfg ops s fs
      = ⟨some (PyErr.attributeError "model"), s, fs, 0, [s.current_epoch]⟩ := by
  have hk : cfg.max_epoch - s.current_epoch
      = (cfg.max_epoch - s.current_epoch - 1) + 1 := by omega
  unfold train
  rw [hk, List.range'_succ, trainEpochs_cons]

theorem train_done (cfg : Config) (ops : NetOps) (s : AgentState)
    (fs : FS) (h : cfg.max_epoch ≤ s.current_epoch) :
    train cfg ops s fs = ⟨none, s, fs, 0, []⟩ := by
  have h0 : cfg.max_epoch - s.current_epoch = 0 := Nat.sub_eq_zero_of_le h
  unfold train
  rw [h0]
  rfl

theorem trainLoop_fixed_noise (cfg : Config) (ops : NetOps) :
    ∀ (l : List Nat) (b : Option Nat) (s : AgentState) (fs : FS),
      (trainLoop cfg ops l b s fs).state.fixed_noise = s.fixed_noise := by
  intro l
  induction l with
  | nil => intro b s fs; simp [trainLoop]
  | cons e rest ih =>
      intro b s fs
      simp only [trainLoop]
      set s1 : AgentState := { s with current_epoch := e } with hs1
      have hsn : ∀ (m : Nat) (bb : Option Nat) (t : AgentState),
          (epochSteps ops m bb t).state.fixed_noise = t.fixed_noise := by
        intro m
        induction m with
        | zero => intro bb t; simp [epochSteps]
        | succ j ihm =>
            intro bb t
            match bb with
            | none => simp [epochSteps, ihm, runStep]
            | some 0 => simp [epochSteps]
            | some (k + 1) => simp [epochSteps, ihm, runStep]
      by_cases h : (epochSteps ops cfg.num_iterations b s1).interrupted
      · simp [h, hsn]
      · simp [h, ih, hsn]

/-! ### Concrete fixtures -/

/-- Concrete per-step update maps used in the closed scenarios. -/
def opsEx : NetOps :=
  { stepG := fun x => x + 1
    stepD := fun x => x + 1
    stepOptG := fun x => x + 1
    stepOptD := fun x => x + 1 }

/-- The spec's test scenario configuration: `max_epoch = 1`,
`num_iterations = 2`, `batch_size = 4`, `latent_dim = 8`. -/
def cfgA : Config :=
  { seed := none
    cuda := false
    batch_size := 4
    g_input_size := 8
    max_epoch := 1
    num_iterations := 2
    checkpoint_dir := "experiments/checkpoints/"
    checkpoint_file := "checkpoint.pth.tar"
    telemetry_interval := 100 }

/-- A two-epoch, ten-step configuration for the cancellation scenario. -/
def cfgB : Config := { cfgA with max_epoch := 2, num_iterations := 10 }

/-- A configuration that sets an explicit seed. -/
def cfgSeeded : Config := { cfgA with seed := some 42 }

/-- A configuration whose (spec-level) telemetry interval is 3. -/
def cfgT3 : Config := { cfgA with telemetry_interval := 3 }

/-- A fresh agent state as produced by a CPU construction with no
checkpoint on disk (`fixed_noise` sample 7, `randint` sample 3). -/
def sFresh : AgentState :=
  { current_epoch := 0
    current_iteration := 0
    netG := 0
    netD := 0
    optimG := 0
    optimD := 0
    fixed_noise := 7
    manual_seed := some 3 }

/-- The construction-time environment matching `sFresh`. -/
def iaEx : InitArgs :=
  { g0 := 0
    d0 := 0
    og0 := 0
    od0 := 0
    fixedNoiseSample := 7
    randintSample := 3
    cudaAvailable := false }

/-- A concrete persisted checkpoint: epoch 5, iteration 40. -/
def ckpt5 : Checkpoint :=
  { epoch := 5
    iteration := 40
    G_state_dict := 11
    G_optimizer := 12
    D_state_dict := 13
    D_optimizer := 14 }

/-- A checkpoint directory holding `ckpt5` under the default name. -/
def fsWith5 : FS :=
  [("experiments/checkpoints/checkpoint.pth.tar", FileContent.valid ckpt5)]

/-- A checkpoint directory whose checkpoint file does not deserialize. -/
def fsCorrupt : FS :=
  [("experiments/checkpoints/checkpoint.pth.tar", FileContent.corrupted)]

/-- The agent state that results from loading `ckpt5` into `sFresh`. -/
def sLoaded5 : AgentState :=
  { current_epoch := 5
    current_iteration := 40
    netG := 11
    netD := 13
    optimG := 12
    optimD := 14
    fixed_noise := 7
    manual_seed := some 3 }

/-! ### C1 -/

/-- C1, counterexample: loading the persisted checkpoint `ckpt5`
(epoch 5, iteration 40) and immediately calling `save_checkpoint` with
no training step in between writes a checkpoint whose epoch field is 6,
so the persisted `TrainingState` is *not* identical to the loaded one:
load followed by save is not idempotent. -/
theorem C1_load_then_save_not_idempotent :
    load_checkpoint cfgA sFresh fsWith5 "checkpoint.pth.tar"
      = Except.ok sLoaded5
    ∧ fsRead (save_checkpoint cfgA sLoaded5 fsWith5 "checkpoint.pth.tar" false)
        "experiments/checkpoints/checkpoint.pth.tar"
      = some (FileContent.valid { ckpt5 with epoch := 6 })
    ∧ ({ ckpt5 with epoch := 6 } : Checkpoint) ≠ ckpt5 := by
  refine ⟨rfl, rfl, by decide⟩

/-- C1, amended: loading a saved checkpoint with epoch `E` and
iteration `I` and immediately calling `save_checkpoint` writes a state
identical to the loaded one in every field except `epoch`, which is
stored as `E + 1` (because `save_checkpoint` persists
`current_epoch + 1`, line 104). -/
theorem C1_load_then_save_increments_epoch (cfg : Config) (s : AgentState)
    (fs : FS) (c : Checkpoint) (fn : String)
    (h : fsRead fs (cfg.checkpoint_dir ++ fn) = some (FileContent.valid c)) :
    ∃ s2, load_checkpoint cfg s fs fn = Except.ok s2
      ∧ checkpointOf s2 = { c with epoch := c.epoch + 1 }
      ∧ fsRead (save_checkpoint cfg s2 fs fn false) (cfg.checkpoint_dir ++ fn)
          = some (FileContent.valid { c with epoch := c.epoch + 1 }) := by
  refine ⟨AgentState.mk c.epoch c.iteration c.G_state_dict c.D_state_dict
    c.G_optimizer c.D_optimizer s.fixed_noise s.manual_seed, ?_, ?_, ?_⟩
  · simp [load_checkpoint, h]
  · simp [checkpointOf]
  · simp [save_checkpoint, fsRead_fsWrite, checkpointOf]

/-- C1, witness for the amended theorem at the concrete store
`fsWith5`. -/
theorem C1_load_then_save_increments_epoch_witness :
    ∃ s2, load_checkpoint cfgA sFresh fsWith5 "checkpoint.pth.tar"
        = Except.ok s2
      ∧ checkpointOf s2 = { ckpt5 with epoch := ckpt5.epoch + 1 }
      ∧ fsRead (save_checkpoint cfgA s2 fsWith5 "checkpoint.pth.tar" false)
          (cfgA.checkpoint_dir ++ "checkpoint.pth.tar")
          = some (FileContent.valid { ckpt5 with epoch := ckpt5.epoch + 1 }) :=
  C1_load_then_save_increments_epoch cfgA sFresh fsWith5 ckpt5
    "checkpoint.pth.tar" (by decide)

/-! ### C3 -/

/-- C3, counterexample: when the checkpoint file exists but does not
deserialize (a failure that is not an `OSError`), `load_checkpoint`
does not recover — the failure propagates to the caller, contradicting
"never propagates the failure to the caller". -/
theorem C3_corrupt_load_propagates :
    load_checkpoint cfgA sFresh fsCorrupt "checkpoint.pth.tar"
      = Except.error PyErr.unpicklingError := rfl

/-- C3, amended: a missing checkpoint file (and any other `OSError`,
the one category the `except` clause at line 98 catches) is logged and
leaves every trainer attribute exactly as it was — the fresh-start
state when called from `__init__` — and is not propagated; but a load
failure that is not an `OSError` (e.g. a deserialization failure)
propagates to the caller. -/
theorem C3_load_osError_fresh_other_propagates (cfg : Config)
    (s : AgentState) (fs : FS) (fn : String) :
    (fsRead fs (cfg.checkpoint_dir ++ fn) = none →
        load_checkpoint cfg s fs fn = Except.ok s)
    ∧ (fsRead fs (cfg.checkpoint_dir ++ fn) = some FileContent.corrupted →
        load_checkpoint cfg s fs fn = Except.error PyErr.unpicklingError) := by
  constructor
  · intro h; simp [load_checkpoint, h]
  · intro h; simp [load_checkpoint, h]

/-- C3, witness: on an empty checkpoint directory the load returns the
state unchanged. -/
theorem C3_load_osError_fresh_other_propagates_witness :
    load_checkpoint cfgA sFresh [] "checkpoint.pth.tar"
      = Except.ok sFresh :=
  (C3_load_osError_fresh_other_propagates cfgA sFresh []
    "checkpoint.pth.tar").1 rfl

/-! ### C9 -/

/-- C9: whenever `config.seed` is explicitly provided, construction
fails with an unbound-name (`AttributeError`) failure on
`manual_seed`, which lines 61-62 assign only on the `seed is None`
branch while line 63 reads it unconditionally; consequently a
successful construction is only possible when no seed is configured. -/
theorem C9_seeded_construction_fails (cfg : Config) (ia : InitArgs)
    (fs : FS) :
    (∀ v, cfg.seed = some v →
        construct cfg ia fs
          = Except.error (PyErr.attributeError "manual_seed"))
    ∧ (∀ s, construct cfg ia fs = Except.ok s → cfg.seed = none) := by
  constructor
  · intro v hv
    simp [construct, hv]
  · intro s hs
    cases h : cfg.seed with
    | none => rfl
    | some v => simp [construct, h] at hs

/-- C9, witness: the concrete configuration with `seed = 42` makes
construction fail with the `manual_seed` attribute failure. -/
theorem C9_seeded_construction_fails_witness :
    construct cfgSeeded iaEx []
      = Except.error (PyErr.attributeError "manual_seed") :=
  (C9_seeded_construction_fails cfgSeeded iaEx []).1 42 rfl

/-! ### C5 -/

/-- C5, counterexample: in the spec's scenario (`max_epoch = 1`,
`num_iterations = 2`, fresh start) training never completes — not one
loss record is produced, `current_iteration` does not reach 2, and the
checkpoint directory stays empty — because `train_one_epoch` raises on
the never-assigned `self.model` (line 139) before its first step. -/
theorem C5_scenario_produces_nothing :
    (train cfgA opsEx sFresh []).records ≠ 2
    ∧ (train cfgA opsEx sFresh []).state.current_iteration ≠ 2
    ∧ fsRead (train cfgA opsEx sFresh []).fs
        "experiments/checkpoints/checkpoint.pth.tar" = none := by
  refine ⟨by decide, by decide, rfl⟩

/-- C5, amended: for a fresh run with `max_epoch = 1` and
`num_iterations = 2`, training does not complete: the run raises the
line-139 `AttributeError` (never-assigned `self.model`) before the
first step of epoch 0, `run` does not catch it, and the run ends with
zero loss records, `current_iteration = 0`, `current_epoch = 0` and no
checkpoint file written. -/
theorem C5_scenario_raises_before_any_step :
    (train cfgA opsEx sFresh []).raised
      = some (PyErr.attributeError "model")
    ∧ (train cfgA opsEx sFresh []).records = 0
    ∧ (train cfgA opsEx sFresh []).state.current_iteration = 0
    ∧ (train cfgA opsEx sFresh []).state.current_epoch = 0
    ∧ (train cfgA opsEx sFresh []).fs = [] := by
  refine ⟨rfl, rfl, rfl, rfl, rfl⟩

/-! ### C10 -/

/-- C10: every checkpoint written by `save_checkpoint` stores
`epoch = current_epoch + 1`; after loading it, the faithful `train`
epoch loop begins at exactly that stored value — it is the first (and,
because of the line-139 failure, the only) epoch index whose body is
entered whenever any epochs remain — so the epoch during which the
save occurred is never re-executed after a resume. -/
theorem C10_resume_skips_saved_epoch (cfg : Config) (ops : NetOps)
    (s s0 : AgentState) (fs : FS) (fn : String) :
    (checkpointOf s).epoch = s.current_epoch + 1
    ∧ ∃ s2,
        load_checkpoint cfg s0 (save_checkpoint cfg s fs fn false) fn
          = Except.ok s2
        ∧ s2.current_epoch = s.current_epoch + 1
        ∧ (train cfg ops s2 (save_checkpoint cfg s fs fn false)).epochsStarted
            = (if s.current_epoch + 1 < cfg.max_epoch
                then [s.current_epoch + 1] else [])
        ∧ s.current_epoch
            ∉ (train cfg ops s2 (save_checkpoint cfg s fs fn false)).epochsStarted := by
  have hread : fsRead (save_checkpoint cfg s fs fn false)
      (cfg.checkpoint_dir ++ fn) = some (FileContent.valid (checkpointOf s)) := by
    simp [save_checkpoint, fsRead_fsWrite]
  refine ⟨rfl, AgentState.mk (s.current_epoch + 1) s.current_iteration s.netG
    s.netD s.optimG s.optimD s0.fixed_noise s0.manual_seed, ?_, rfl, ?_, ?_⟩
  · simp [load_checkpoint, hread, checkpointOf]
  · by_cases h : s.current_epoch + 1 < cfg.max_epoch
    · rw [if_pos h, train_crash _ _ _ _ h]
    · rw [if_neg h, train_done _ _ _ _ (Nat.le_of_not_lt h)]
  · by_cases h : s.current_epoch + 1 < cfg.max_epoch
    · rw [train_crash _ _ _ _ h]
      simp
    · rw [train_done _ _ _ _ (Nat.le_of_not_lt h)]
      simp

/-! ### C2 -/

/-- C2: the claim's cancellation scenario is unrealizable.  Whenever
any epochs remain, `train` raises the line-139 `AttributeError`
(never-assigned `self.model`) before the first step of the first
epoch, `run` catches only `KeyboardInterrupt` so the failure
propagates, and the run ends with zero loss records, the attributes
untouched, and the checkpoint directory exactly as it was: no step
ever completes, no epoch checkpoint is ever written by the loop, and a
cancellation observed "after step k" of an epoch can never occur. -/
theorem C2_run_crashes_before_any_cancellation (cfg : Config)
    (ops : NetOps) (s : AgentState) (fs : FS)
    (h : s.current_epoch < cfg.max_epoch) :
    (train cfg ops s fs).raised = some (PyErr.attributeError "model")
    ∧ (train cfg ops s fs).records = 0
    ∧ (train cfg ops s fs).state = s
    ∧ (train cfg ops s fs).fs = fs := by
  rw [train_crash cfg ops s fs h]
  exact ⟨rfl, rfl, rfl, rfl⟩

/-- C2, witness: the concrete fresh two-epoch ten-step run, in which
the spec imagined a cancellation after step 3 of the second epoch,
errors before any step and leaves the checkpoint directory empty. -/
theorem C2_run_crashes_before_any_cancellation_witness :
    (train cfgB opsEx sFresh []).raised
      = some (PyErr.attributeError "model")
    ∧ (train cfgB opsEx sFresh []).records = 0
    ∧ (train cfgB opsEx sFresh []).state = sFresh
    ∧ (train cfgB opsEx sFresh []).fs = [] :=
  C2_run_crashes_before_any_cancellation cfgB opsEx sFresh [] (by decide)

/-! ### C4 -/

/-- C4: in every per-step update, (i) exactly one fake-label loss is
back-propagated and its discriminator input is the detached generator
output, (ii) no fake-label backward sends gradient into the generator,
(iii) the discriminator optimizer steps exactly once per step and does
so right after the real-loss and fake-loss backwards accumulated into
the gradient buffer reset at the start of the step, and (iv) the
generator step then re-runs the discriminator on the same
(non-detached) fake batch with the loss taken against the real-label
target — a forward whose backward does reach the generator. -/
theorem C4_step_protocol (i : Nat) :
    ((stepEvents i).count
        (Event.backward
          (TExpr.discForward (TExpr.detach (TExpr.genForward TExpr.stepNoise)))
          Label.fake) = 1)
    ∧ ((stepEvents i).all fun e =>
        match e with
        | Event.backward out Label.fake => !touchesG out
        | _ => true) = true
    ∧ ((stepEvents i).count (Event.optStep Net.D) = 1)
    ∧ ((stepEvents i).take 4
        = [Event.zeroGrad Net.D,
           Event.backward (TExpr.discForward TExpr.realBatch) Label.real,
           Event.backward
             (TExpr.discForward (TExpr.detach (TExpr.genForward TExpr.stepNoise)))
             Label.fake,
           Event.optStep Net.D])
    ∧ (((stepEvents i).drop 4).take 3
        = [Event.zeroGrad Net.G,
           Event.backward (TExpr.discForward (TExpr.genForward TExpr.stepNoise))
             Label.real,
           Event.optStep Net.G])
    ∧ touchesG (TExpr.discForward (TExpr.genForward TExpr.stepNoise)) = true := by
  cases h : i % 100 == 0 <;>
    simp [stepEvents, h, touchesG, List.count_cons, List.count_nil]

/-! ### C6 -/

/-- C6: the fixed evaluation noise is the one sample drawn at
construction (a successful `__init__` always carries exactly the
construction-time sample), is preserved untouched by the whole
epoch/step loop whatever the budget (stated over the hypothetical
line-139-elided loop, the superset of the state updates the real,
failing run performs — so it holds a fortiori for the real program),
and every image the step body emits is either the real batch or
generated from the fixed vector — never from the per-step noise. -/
theorem C6_fixed_noise_sampled_once :
    (∀ (cfg : Config) (ia : InitArgs) (fs : FS) (s : AgentState),
        construct cfg ia fs = Except.ok s →
          s.fixed_noise = ia.fixedNoiseSample)
    ∧ (∀ (cfg : Config) (ops : NetOps) (l : List Nat) (b : Option Nat)
          (s : AgentState) (fs : FS),
        (trainLoop cfg ops l b s fs).state.fixed_noise = s.fixed_noise)
    ∧ (∀ (i : Nat) (tag : String) (img : TExpr),
        Event.addImage tag img ∈ stepEvents i →
          img = TExpr.realBatch
          ∨ img = TExpr.detach (TExpr.genForward TExpr.fixedNoise)) := by
  refine ⟨?_, ?_, ?_⟩
  · intro cfg ia fs s hs
    revert hs
    unfold construct load_checkpoint
    cases hseed : cfg.seed with
    | some v => intro hs; simp at hs
    | none =>
        cases hcuda : ia.cudaAvailable && cfg.cuda with
        | true => intro hs; simp at hs
        | false =>
            cases hread : fsRead fs (cfg.checkpoint_dir ++ cfg.checkpoint_file) with
            | none => intro hs; simp at hs; rw [← hs]
            | some fc =>
                cases fc with
                | corrupted => intro hs; simp at hs
                | valid c => intro hs; simp at hs; rw [← hs]
  · intro cfg ops l b s fs
    exact trainLoop_fixed_noise cfg ops l b s fs
  · intro i tag img h
    cases hi : i % 100 == 0 <;> simp [stepEvents, hi] at h
    rcases h with ⟨_, h⟩ | ⟨_, h⟩
    · exact Or.inl h
    · exact Or.inr h

/-- C6, witness: the concrete fresh construction keeps its
construction-time sample 7, and the real-image record of step 0 is one
of the two permitted images. -/
theorem C6_fixed_noise_sampled_once_witness :
    sFresh.fixed_noise = iaEx.fixedNoiseSample
    ∧ (TExpr.realBatch = TExpr.realBatch
        ∨ TExpr.realBatch = TExpr.detach (TExpr.genForward TExpr.fixedNoise)) :=
  ⟨C6_fixed_noise_sampled_once.1 cfgA iaEx [] sFresh rfl,
   C6_fixed_noise_sampled_once.2.2 0 ("Real image " ++ toString 0)
     TExpr.realBatch (by decide)⟩

/-! ### C8 -/

/-- C8, counterexample: the emission test at line 196 is the literal
`curr_it % 100 == 0`; no configuration key is consulted.  With the
spec's telemetry-emission interval configured to 3, the spec prescribes
emission at step 3 yet the step emits nothing, and conversely at step
100 the spec prescribes silence yet the step emits. -/
theorem C8_interval_not_configurable :
    specEmitsAt cfgT3 3 = true
    ∧ (stepEvents 3).filter isTelemetry = []
    ∧ specEmitsAt cfgT3 100 = false
    ∧ (stepEvents 100).filter isTelemetry ≠ [] := by
  refine ⟨rfl, rfl, rfl, by decide⟩

/-- C8, amended: telemetry is emitted exactly on the steps whose
0-based per-epoch index is a multiple of the *hardcoded* constant 100
(the interval is not configurable), and on such a step exactly the two
epoch loss scalars and a real/generated image pair are emitted, in
that order; on every other step no scalar or image is emitted. -/
theorem C8_telemetry_every_100_steps (i : Nat) :
    (stepEvents i).filter isTelemetry
      = if i % 100 == 0 then
          [Event.addScalar "epoch/Generator_loss",
           Event.addScalar "epoch/Discriminator_loss",
           Event.addImage ("Real image " ++ toString i) TExpr.realBatch,
           Event.addImage ("Generated Image" ++ toString i)
             (TExpr.detach (TExpr.genForward TExpr.fixedNoise))]
        else [] := by
  cases h : i % 100 == 0 <;> simp [stepEvents, h, isTelemetry]

/-! ### C7 -/

/-- C7, counterexample: `save_checkpoint` performs a direct
`torch.save` into the destination name — its operation sequence
contains a plain write of the final path and no rename — so the
write-to-temp-then-rename discipline (the spec's atomic-publish
mechanism) is absent. -/
theorem C7_save_not_atomic :
    atomicPublish (save_checkpoint_fsops cfgA "checkpoint.pth.tar" true)
        "experiments/checkpoints/checkpoint.pth.tar" = false
    ∧ FSOp.writeFile "experiments/checkpoints/checkpoint.pth.tar"
        ∈ save_checkpoint_fsops cfgA "checkpoint.pth.tar" true := by
  refine ⟨rfl, by decide⟩

/-- C7, amended: every save first writes the serialized state directly
(non-atomically) to `checkpoint_dir + file_name`, never performs any
rename, and duplicates the artifact to the stable
`model_best.pth.tar` name exactly when `is_best` is set. -/
theorem C7_save_direct_write (cfg : Config) (fn : String) (is_best : Bool) :
    (save_checkpoint_fsops cfg fn is_best).head?
        = some (FSOp.writeFile (cfg.checkpoint_dir ++ fn))
    ∧ ((save_checkpoint_fsops cfg fn is_best).all fun op =>
        match op with
        | FSOp.renameFile _ _ => false
        | _ => true) = true
    ∧ ((FSOp.copyFile (cfg.checkpoint_dir ++ fn)
          (cfg.checkpoint_dir ++ "model_best.pth.tar")
          ∈ save_checkpoint_fsops cfg fn is_best) ↔ is_best = true) := by
  cases is_best <;> simp [save_checkpoint_fsops]

end DCGAN
